import Mathlib

/-!
Verification development for the `ckanext-dalrrd-emc-dcpr` action module
(`ckanext/dalrrd_emc_dcpr/logic/action/emc.py`).

The module is a thin orchestration layer over a host platform (CKAN): every
operation authorizes, then delegates to host primitives.  We embed the host as
an oracle structure (`Host`): each host action is a function returning
`Except Exn result`, and a run of an action of this module is a pair of the
list of host calls it issued (`List Event`, in order) and its own outcome
(`Except Exn _`).  Database reads for the featured-dataset query are embedded
as list combinators mirroring the SQLAlchemy select/join/where/limit/offset
pipeline.
-/

namespace EmcDcpr

/-- Payload discriminating why a host action raised a ValidationError:
either the follow target is already followed, or some other validation
failure (tagged by a code). -/
inductive ValidationReason where
  | alreadyFollowing : ValidationReason
  | otherReason : Nat → ValidationReason
  deriving DecidableEq

/-- Exceptions that host actions may raise, per the error taxonomy:
NotAuthorized (authorization failure), ValidationError (with a reason),
and any other host-raised exception (tagged by a code). -/
inductive Exn where
  | NotAuthorized : Exn
  | ValidationError : ValidationReason → Exn
  | OtherError : Nat → Exn
  deriving DecidableEq

/-- Modelled from the spec: the external constants module (not under src/)
defines two enumerated activity type values, REQUEST_MAINTENANCE and
REQUEST_PUBLICATION. -/
inductive DatasetManagementActivityType where
  | REQUEST_MAINTENANCE : DatasetManagementActivityType
  | REQUEST_PUBLICATION : DatasetManagementActivityType
  deriving DecidableEq

/-- Modelled from the spec: the string value carried by each enumerated
activity type constant. -/
def DatasetManagementActivityType.value : DatasetManagementActivityType → String
  | .REQUEST_MAINTENANCE => "request_maintenance"
  | .REQUEST_PUBLICATION => "request_publication"

/-- The create-activity validation schema: for this module only the
`activity_type` and `object_id` validator lists matter.  Validators are
identified by their name (the Python code looks them up by `__name__`). -/
structure ActivitySchema where
  activity_type : List String
  object_id : List String
  deriving DecidableEq

/-- The full dataset representation returned by the host package-show
action; opaque to this module, which only embeds it in the activity data. -/
abbrev Package := String

/-- An activity record as returned by the host activity-create action;
this module only reads its id. -/
structure Activity where
  id : String
  deriving DecidableEq

/-- The context dict passed by this module to the host activity-create
action: ignore_auth flag and the patched schema. -/
structure ActivityCreateContext where
  ignore_auth : Bool
  schema : ActivitySchema
  deriving DecidableEq

/-- The data dict passed by this module to the host activity-create action. -/
structure ActivityCreateData where
  user_id : String
  object_id : String
  activity_type : String
  data_package : Package
  deriving DecidableEq

/-- The data dict passed by this module to the host emc_user_patch action. -/
structure UserPatchData where
  id : String
  activity_streams_email_notifications : Bool
  deriving DecidableEq

/-- One host call issued by this module, with its arguments. -/
inductive Event where
  | packageShow : String → Event
  | activityCreate : ActivityCreateContext → ActivityCreateData → Event
  | userPatch : UserPatchData → Event
  | followDataset : String → Event
  | enqueueJob : String → List String → Event
  deriving DecidableEq

/-- A row of the package table (columns read by this module). -/
structure PackageRow where
  id : String
  name : String
  state : String
  priv : Bool
  deriving DecidableEq

/-- A row of the package-extra table (columns read by this module:
the join key and the featured value). -/
structure PackageExtraRow where
  package_id : String
  featured : String
  deriving DecidableEq

/-- The relational model exposed through the context (the two tables the
featured-dataset query touches). -/
structure DbModel where
  package_table : List PackageRow
  package_extra_table : List PackageExtraRow

/-- The action context: the acting user name and the database model. -/
structure Context where
  user : String
  model : DbModel

/-- The host platform as an oracle: authorization checks by name, the
default create-activity schema, and one function per host action called by
this module, each returning a result or an exception. -/
structure Host where
  checkAccess : String → Bool
  defaultCreateActivitySchema : ActivitySchema
  packageShow : String → Except Exn Package
  activityCreate : ActivityCreateContext → ActivityCreateData → Except Exn Activity
  userPatch : UserPatchData → Except Exn Unit
  followDataset : String → Except Exn Unit

/-- Inner join of the package and package-extra tables on the package id,
as produced by `package_table.join(package_extra_table)`. -/
def sqlJoin (ps : List PackageRow) (es : List PackageExtraRow) :
    List (PackageRow × PackageExtraRow) :=
  ps.flatMap fun p => (es.filter fun e => e.package_id = p.id).map fun e => (p, e)

/-- The WHERE clause of a select, as a row filter. -/
def sqlWhere {α : Type} (cond : α → Bool) (rows : List α) : List α :=
  rows.filter cond

/-- The LIMIT/OFFSET clause of a select: skip `offset` rows, return at most
`limit` rows. -/
def sqlLimitOffset {α : Type} (limit offset : Nat) (rows : List α) : List α :=
  (rows.drop offset).take limit

/-- Options recognized by list_featured_datasets in its data_dict; a `none`
field means the key is absent from the dict. -/
structure FeaturedOptions where
  include_private : Option Bool
  limit : Option Nat
  offset : Option Nat

/-- Embedding of `show_version`: the package version and the GIT_COMMIT
environment variable are inputs (the host environment); the context and
data_dict are accepted and ignored.  Returns the mapping as an association
list, version always present, git_sha equal to the environment value. -/
def show_version (packageVersion : String) (gitCommitEnv : Option String)
    (_context : Option Context) (_data_dict : Option (List (String × String))) :
    List (String × Option String) :=
  [("version", some packageVersion), ("git_sha", gitCommitEnv)]

/-- Embedding of `list_featured_datasets`: authorize, read the options with
their defaults, then run the select over the joined tables with the three
WHERE conditions and LIMIT/OFFSET, returning the selected name column. -/
def list_featured_datasets (h : Host) (context : Context)
    (data_dict : Option FeaturedOptions) : Except Exn (List String) :=
  if h.checkAccess "emc_authorize_list_featured_datasets" then
    let include_private := (data_dict.map (·.include_private)).join.getD false
    let limit := (data_dict.map (·.limit)).join.getD 10
    let offset := (data_dict.map (·.offset)).join.getD 0
    let model := context.model
    Except.ok
      ((sqlLimitOffset limit offset
        ((sqlWhere
          (fun pe =>
            pe.2.featured == "true" && pe.1.state == "active"
              && pe.1.priv == include_private)
          (sqlJoin model.package_table model.package_extra_table)).map
          (fun pe => pe.1.name))))
  else Except.error Exn.NotAuthorized

/-- Removal of the first validator with the given name from a validator
list, mirroring the find-by-name loop followed by `list.remove`; when no
validator has the name, the list is returned unchanged. -/
def removeFirstNamed (name : String) : List String → List String
  | [] => []
  | v :: rest => if v = name then rest else v :: removeFirstNamed name rest

/-- The schema patch performed inside `_create_dataset_management_activity`:
remove the first validator named activity_type_exists from the
activity_type list, remove the first validator named object_id_validator
from the object_id list, and append the package_id_exists validator to the
object_id list. -/
def patchActivitySchema (s : ActivitySchema) : ActivitySchema :=
  { activity_type := removeFirstNamed "activity_type_exists" s.activity_type,
    object_id :=
      removeFirstNamed "object_id_validator" s.object_id ++ ["package_id_exists"] }

/-- Embedding of `_create_dataset_management_activity`: patch a fresh copy
of the default create-activity schema, show the dataset, then call the host
activity-create action with ignore_auth true, the patched schema, the
global request user id, the dataset id, the activity type value, and the
dataset representation as data. -/
def _create_dataset_management_activity (h : Host) (g_userobj_id : String)
    (dataset_id : String) (activity_type : DatasetManagementActivityType) :
    List Event × Except Exn Activity :=
  let activity_schema := patchActivitySchema h.defaultCreateActivitySchema
  match h.packageShow dataset_id with
  | Except.error e => ([Event.packageShow dataset_id], Except.error e)
  | Except.ok dataset =>
      let cx : ActivityCreateContext :=
        { ignore_auth := true, schema := activity_schema }
      let d : ActivityCreateData :=
        { user_id := g_userobj_id, object_id := dataset_id,
          activity_type := activity_type.value, data_package := dataset }
      ([Event.packageShow dataset_id, Event.activityCreate cx d],
        h.activityCreate cx d)

/-- Embedding of `_ensure_user_is_notifiable`: patch the user to enable
activity-stream email notifications, then attempt to follow the dataset,
swallowing a ValidationError raised by the follow call and propagating any
other exception. -/
def _ensure_user_is_notifiable (h : Host) (user_id : String)
    (dataset_id : String) : List Event × Except Exn Unit :=
  let d : UserPatchData :=
    { id := user_id, activity_streams_email_notifications := true }
  match h.userPatch d with
  | Except.error e => ([Event.userPatch d], Except.error e)
  | Except.ok _ =>
      match h.followDataset dataset_id with
      | Except.error (Exn.ValidationError _) =>
          ([Event.userPatch d, Event.followDataset dataset_id], Except.ok ())
      | Except.error e =>
          ([Event.userPatch d, Event.followDataset dataset_id], Except.error e)
      | Except.ok _ =>
          ([Event.userPatch d, Event.followDataset dataset_id], Except.ok ())

/-- The name of the background job function handed to the job queue. -/
def notifyJobName : String := "notify_org_admins_of_dataset_management_request"

/-- Embedding of `request_dataset_maintenance`: authorize, create the
management activity with type REQUEST_MAINTENANCE, ensure the context user
is notifiable, then enqueue the notification job with the new activity id. -/
def request_dataset_maintenance (h : Host) (g_userobj_id : String)
    (context : Context) (pkg_id : String) : List Event × Except Exn Unit :=
  if h.checkAccess "emc_request_dataset_maintenance" then
    match _create_dataset_management_activity h g_userobj_id pkg_id
        DatasetManagementActivityType.REQUEST_MAINTENANCE with
    | (t1, Except.error e) => (t1, Except.error e)
    | (t1, Except.ok activity) =>
        match _ensure_user_is_notifiable h context.user pkg_id with
        | (t2, Except.error e) => (t1 ++ t2, Except.error e)
        | (t2, Except.ok _) =>
            (t1 ++ t2 ++ [Event.enqueueJob notifyJobName [activity.id]],
              Except.ok ())
  else ([], Except.error Exn.NotAuthorized)

/-- Embedding of `request_dataset_publication`: identical shape to the
maintenance request, with its own authorization name and the
REQUEST_PUBLICATION activity type. -/
def request_dataset_publication (h : Host) (g_userobj_id : String)
    (context : Context) (pkg_id : String) : List Event × Except Exn Unit :=
  if h.checkAccess "emc_request_dataset_publication" then
    match _create_dataset_management_activity h g_userobj_id pkg_id
        DatasetManagementActivityType.REQUEST_PUBLICATION with
    | (t1, Except.error e) => (t1, Except.error e)
    | (t1, Except.ok activity) =>
        match _ensure_user_is_notifiable h context.user pkg_id with
        | (t2, Except.error e) => (t1 ++ t2, Except.error e)
        | (t2, Except.ok _) =>
            (t1 ++ t2 ++ [Event.enqueueJob notifyJobName [activity.id]],
              Except.ok ())
  else ([], Except.error Exn.NotAuthorized)

/-- The context this module passes to the host activity-create action:
ignore_auth set, schema patched from the default. -/
def activityCtx (h : Host) : ActivityCreateContext :=
  { ignore_auth := true, schema := patchActivitySchema h.defaultCreateActivitySchema }

/-- The data this module passes to the host activity-create action. -/
def activityData (g pkg : String) (ty : DatasetManagementActivityType)
    (ds : Package) : ActivityCreateData :=
  { user_id := g, object_id := pkg, activity_type := ty.value, data_package := ds }

/-- The data this module passes to the host emc_user_patch action. -/
def notifPatch (c : Context) : UserPatchData :=
  { id := c.user, activity_streams_email_notifications := true }

/-- The common shape of the two request handlers, parameterized by the
authorization name and the activity type; each handler is definitionally
equal to this at its own two parameters. -/
def requestRun (h : Host) (g_userobj_id : String) (context : Context)
    (pkg_id : String) (authName : String)
    (ty : DatasetManagementActivityType) : List Event × Except Exn Unit :=
  if h.checkAccess authName then
    match _create_dataset_management_activity h g_userobj_id pkg_id ty with
    | (t1, Except.error e) => (t1, Except.error e)
    | (t1, Except.ok activity) =>
        match _ensure_user_is_notifiable h context.user pkg_id with
        | (t2, Except.error e) => (t1 ++ t2, Except.error e)
        | (t2, Except.ok _) =>
            (t1 ++ t2 ++ [Event.enqueueJob notifyJobName [activity.id]],
              Except.ok ())
  else ([], Except.error Exn.NotAuthorized)

theorem maintenance_eq_requestRun (h : Host) (g : String) (c : Context)
    (pkg : String) :
    request_dataset_maintenance h g c pkg =
      requestRun h g c pkg "emc_request_dataset_maintenance"
        DatasetManagementActivityType.REQUEST_MAINTENANCE := rfl

theorem publication_eq_requestRun (h : Host) (g : String) (c : Context)
    (pkg : String) :
    request_dataset_publication h g c pkg =
      requestRun h g c pkg "emc_request_dataset_publication"
        DatasetManagementActivityType.REQUEST_PUBLICATION := rfl

/-- A sample database: p1 featured/active/public, p2 featured/active/private,
p3 featured but deleted, p4 active/public but not featured. -/
def sampleDb : DbModel :=
  { package_table :=
      [ { id := "p1", name := "ds-one", state := "active", priv := false },
        { id := "p2", name := "ds-two", state := "active", priv := true },
        { id := "p3", name := "ds-three", state := "deleted", priv := false },
        { id := "p4", name := "ds-four", state := "active", priv := false } ],
    package_extra_table :=
      [ { package_id := "p1", featured := "true" },
        { package_id := "p2", featured := "true" },
        { package_id := "p3", featured := "true" },
        { package_id := "p4", featured := "false" } ] }

/-- A sample action context. -/
def sampleCtx : Context := { user := "ctx-user", model := sampleDb }

/-- A sample default create-activity schema holding both validators the
patcher removes. -/
def sampleSchema : ActivitySchema :=
  { activity_type := ["not_missing", "activity_type_exists"],
    object_id := ["not_missing", "object_id_validator"] }

/-- A host on which every call succeeds. -/
def okHost : Host :=
  { checkAccess := fun _ => true,
    defaultCreateActivitySchema := sampleSchema,
    packageShow := fun pid => Except.ok ("dataset-" ++ pid),
    activityCreate := fun _ _ => Except.ok { id := "act-1" },
    userPatch := fun _ => Except.ok (),
    followDataset := fun _ => Except.ok () }

/-- A host that denies every authorization check. -/
def denyHost : Host := { okHost with checkAccess := fun _ => false }

/-- A host whose follow action reports the user already follows the
dataset, as a ValidationError. -/
def alreadyFollowingHost : Host :=
  { okHost with
    followDataset := fun _ =>
      Except.error (Exn.ValidationError ValidationReason.alreadyFollowing) }

/-- A host whose follow action raises a ValidationError for a reason other
than already-following. -/
def otherValidationHost : Host :=
  { okHost with
    followDataset := fun _ =>
      Except.error (Exn.ValidationError (ValidationReason.otherReason 7)) }

/-- A host whose package-show action fails. -/
def failShowHost : Host :=
  { okHost with packageShow := fun _ => Except.error (Exn.OtherError 3) }

/-- C1: for a caller failing the required authorization check, each of the
three protected actions fails with NotAuthorized and issues no host calls,
so no activity is created, no user preference is patched, no follow is
attempted, and no job is enqueued. -/
theorem C1_auth_failure_no_side_effects (h : Host) (g : String) (c : Context)
    (pkg : String) (dd : Option FeaturedOptions) :
    (h.checkAccess "emc_authorize_list_featured_datasets" = false →
      list_featured_datasets h c dd = Except.error Exn.NotAuthorized) ∧
    (h.checkAccess "emc_request_dataset_maintenance" = false →
      request_dataset_maintenance h g c pkg =
        ([], Except.error Exn.NotAuthorized)) ∧
    (h.checkAccess "emc_request_dataset_publication" = false →
      request_dataset_publication h g c pkg =
        ([], Except.error Exn.NotAuthorized)) := by
  refine ⟨fun ha => ?_, fun ha => ?_, fun ha => ?_⟩ <;>
    simp [list_featured_datasets, request_dataset_maintenance,
      request_dataset_publication, ha]

theorem C1_auth_failure_no_side_effects_witness :
    list_featured_datasets denyHost sampleCtx none =
        Except.error Exn.NotAuthorized ∧
      request_dataset_maintenance denyHost "g-user" sampleCtx "p1" =
        ([], Except.error Exn.NotAuthorized) ∧
      request_dataset_publication denyHost "g-user" sampleCtx "p1" =
        ([], Except.error Exn.NotAuthorized) := by
  have h := C1_auth_failure_no_side_effects denyHost "g-user" sampleCtx "p1" none
  exact ⟨h.1 rfl, h.2.1 rfl, h.2.2 rfl⟩

/-- C8: show_version always returns a mapping holding both the version key
and the git_sha key, git_sha carries exactly the GIT_COMMIT environment
value and is none when that variable is unset, and the result is
independent of context and data_dict (no authorization check, no error
outcome: the operation is total). -/
theorem C8_show_version_contract (v : String) (env : Option String)
    (ctx : Option Context) (dd : Option (List (String × String))) :
    (show_version v env ctx dd).lookup "version" = some (some v) ∧
    (show_version v env ctx dd).lookup "git_sha" = some env ∧
    (show_version v none ctx dd).lookup "git_sha" = some none ∧
    show_version v env ctx dd = show_version v env none none := by
  refine ⟨rfl, ?_, ?_, rfl⟩ <;> simp [show_version, List.lookup]

/-- Unfolding equation for the activity-creation helper in terms of the
named argument bundles. -/
theorem create_activity_eq (h : Host) (g pkg : String)
    (ty : DatasetManagementActivityType) :
    _create_dataset_management_activity h g pkg ty =
      match h.packageShow pkg with
      | Except.error e => ([Event.packageShow pkg], Except.error e)
      | Except.ok ds =>
          ([Event.packageShow pkg,
            Event.activityCreate (activityCtx h) (activityData g pkg ty ds)],
            h.activityCreate (activityCtx h) (activityData g pkg ty ds)) := rfl

/-- Full case characterization of a request run: either the authorization
check fails, or it passes and the run stops at the first failing host step,
with the trace of the calls issued so far; on full success the trace ends
with the job enqueue carrying the created activity id. -/
theorem requestRun_cases (h : Host) (g : String) (c : Context) (pkg : String)
    (an : String) (ty : DatasetManagementActivityType) :
    (h.checkAccess an = false ∧
      requestRun h g c pkg an ty = ([], Except.error Exn.NotAuthorized)) ∨
    (h.checkAccess an = true ∧
      ((∃ e, h.packageShow pkg = Except.error e ∧
        requestRun h g c pkg an ty =
          ([Event.packageShow pkg], Except.error e)) ∨
      (∃ ds, h.packageShow pkg = Except.ok ds ∧
        ((∃ e,
          h.activityCreate (activityCtx h) (activityData g pkg ty ds) =
              Except.error e ∧
            requestRun h g c pkg an ty =
              ([Event.packageShow pkg,
                Event.activityCreate (activityCtx h) (activityData g pkg ty ds)],
                Except.error e)) ∨
        (∃ act,
          h.activityCreate (activityCtx h) (activityData g pkg ty ds) =
              Except.ok act ∧
            ((∃ e, h.userPatch (notifPatch c) = Except.error e ∧
              requestRun h g c pkg an ty =
                ([Event.packageShow pkg,
                  Event.activityCreate (activityCtx h)
                    (activityData g pkg ty ds),
                  Event.userPatch (notifPatch c)], Except.error e)) ∨
            (h.userPatch (notifPatch c) = Except.ok () ∧
              ((∃ e, h.followDataset pkg = Except.error e ∧
                (∀ r, e ≠ Exn.ValidationError r) ∧
                requestRun h g c pkg an ty =
                  ([Event.packageShow pkg,
                    Event.activityCreate (activityCtx h)
                      (activityData g pkg ty ds),
                    Event.userPatch (notifPatch c),
                    Event.followDataset pkg], Except.error e)) ∨
              ((h.followDataset pkg = Except.ok () ∨
                  (∃ r, h.followDataset pkg =
                    Except.error (Exn.ValidationError r))) ∧
                requestRun h g c pkg an ty =
                  ([Event.packageShow pkg,
                    Event.activityCreate (activityCtx h)
                      (activityData g pkg ty ds),
                    Event.userPatch (notifPatch c),
                    Event.followDataset pkg,
                    Event.enqueueJob notifyJobName [act.id]],
                    Except.ok ())))))))))) := by
  by_cases hca : h.checkAccess an = true
  case neg =>
    left
    refine ⟨Bool.eq_false_iff.mpr hca, ?_⟩
    simp [requestRun, hca]
  right
  refine ⟨hca, ?_⟩
  cases hps : h.packageShow pkg with
  | error e =>
      left
      exact ⟨e, rfl, by
        simp [requestRun, hca, _create_dataset_management_activity, hps]⟩
  | ok ds =>
      right
      refine ⟨ds, rfl, ?_⟩
      cases hac : h.activityCreate (activityCtx h) (activityData g pkg ty ds) with
      | error e =>
          left
          refine ⟨e, rfl, ?_⟩
          simp only [requestRun, hca, if_true, create_activity_eq, hps]
          simp [hac]
      | ok act =>
          right
          refine ⟨act, rfl, ?_⟩
          cases hup : h.userPatch (notifPatch c) with
          | error e =>
              left
              refine ⟨e, rfl, ?_⟩
              simp only [notifPatch] at hup
              simp only [requestRun, hca, if_true, create_activity_eq, hps]
              simp only [hac, _ensure_user_is_notifiable]
              simp [hup, notifPatch]
          | ok u =>
              right
              refine ⟨rfl, ?_⟩
              simp only [notifPatch] at hup
              cases hfd : h.followDataset pkg with
              | error e =>
                  cases e with
                  | ValidationError r =>
                      right
                      refine ⟨Or.inr ⟨r, rfl⟩, ?_⟩
                      simp only [requestRun, hca, if_true, create_activity_eq,
                        hps]
                      simp only [hac, _ensure_user_is_notifiable]
                      simp [hup, hfd, notifPatch]
                  | NotAuthorized =>
                      left
                      refine ⟨Exn.NotAuthorized, rfl, fun r => by simp, ?_⟩
                      simp only [requestRun, hca, if_true, create_activity_eq,
                        hps]
                      simp only [hac, _ensure_user_is_notifiable]
                      simp [hup, hfd, notifPatch]
                  | OtherError n =>
                      left
                      refine ⟨Exn.OtherError n, rfl, fun r => by simp, ?_⟩
                      simp only [requestRun, hca, if_true, create_activity_eq,
                        hps]
                      simp only [hac, _ensure_user_is_notifiable]
                      simp [hup, hfd, notifPatch]
              | ok u2 =>
                  right
                  refine ⟨Or.inl rfl, ?_⟩
                  simp only [requestRun, hca, if_true, create_activity_eq, hps]
                  simp only [hac, _ensure_user_is_notifiable]
                  simp [hup, hfd, notifPatch]

/-- Specification-level description of the featured-dataset selection:
names of joined package/extra rows whose featured extra is the literal
string true, whose state is active, and whose private flag equals
include_private, skipping offset rows and returning at most limit rows. -/
def featuredNamesSpec (m : DbModel) (include_private : Bool)
    (limit offset : Nat) : List String :=
  ((((sqlJoin m.package_table m.package_extra_table).filter
      (fun pe => decide (pe.2.featured = "true" ∧ pe.1.state = "active" ∧
        pe.1.priv = include_private))).map
    (fun pe => pe.1.name)).drop offset).take limit

/-- C4: for every authorized call, list_featured_datasets returns exactly
the name rows of the joined datasets whose featured extra equals the
literal string true, whose state is active, and whose private flag equals
include_private, paginated by limit and offset; with the options absent or
data_dict absent, include_private defaults to false, limit to 10 and
offset to 0. -/
theorem C4_list_featured_characterization (h : Host) (c : Context)
    (ip : Bool) (l o : Nat) :
    h.checkAccess "emc_authorize_list_featured_datasets" = true →
    (list_featured_datasets h c
        (some { include_private := some ip, limit := some l, offset := some o }) =
        Except.ok (featuredNamesSpec c.model ip l o) ∧
      list_featured_datasets h c none =
        Except.ok (featuredNamesSpec c.model false 10 0) ∧
      list_featured_datasets h c
          (some { include_private := none, limit := none, offset := none }) =
        Except.ok (featuredNamesSpec c.model false 10 0)) := by
  intro ha
  have hfil : ∀ (b : Bool) (rows : List (PackageRow × PackageExtraRow)),
      sqlWhere
          (fun pe => pe.2.featured == "true" && pe.1.state == "active" &&
            pe.1.priv == b) rows =
        List.filter
          (fun pe => decide (pe.2.featured = "true" ∧ pe.1.state = "active" ∧
            pe.1.priv = b)) rows := by
    intro b rows
    apply List.filter_congr
    intro pe _
    by_cases h1 : pe.2.featured = "true" <;>
      by_cases h2 : pe.1.state = "active" <;>
        by_cases h3 : pe.1.priv = b <;>
          simp [h1, h2, h3]
  refine ⟨?_, ?_, ?_⟩ <;>
    · simp only [list_featured_datasets, ha]
      rw [hfil]
      rfl

theorem C4_list_featured_characterization_witness :
    okHost.checkAccess "emc_authorize_list_featured_datasets" = true ∧
      list_featured_datasets okHost sampleCtx (some ⟨some false, some 2, some 0⟩) =
        Except.ok ["ds-one"] ∧
      list_featured_datasets okHost sampleCtx none = Except.ok ["ds-one"] := by
  have h := C4_list_featured_characterization okHost sampleCtx false 2 0 rfl
  exact ⟨rfl, h.1.trans rfl, h.2.1.trans rfl⟩

theorem removeFirstNamed_of_not_mem (name : String) (l : List String)
    (h : name ∉ l) : removeFirstNamed name l = l := by
  induction l with
  | nil => rfl
  | cons v rest ih =>
      simp only [List.mem_cons, not_or] at h
      rw [removeFirstNamed, if_neg (fun he => h.1 he.symm), ih h.2]

theorem removeFirstNamed_append_cons (name : String) (l₁ l₂ : List String)
    (h : name ∉ l₁) :
    removeFirstNamed name (l₁ ++ name :: l₂) = l₁ ++ l₂ := by
  induction l₁ with
  | nil => simp [removeFirstNamed]
  | cons v rest ih =>
      simp only [List.mem_cons, not_or] at h
      rw [List.cons_append, removeFirstNamed, if_neg (fun he => h.1 he.symm),
        ih h.2]
      rfl

/-- C5: the schema patcher removes the first validator named
activity_type_exists from the activity_type list and the first named
object_id_validator from the object_id list, appends package_id_exists to
the object_id list, silently skips each removal when the named validator
is absent, and the activity-creation helper passes exactly the patch of a
fresh copy of the host default schema with every activity-create call. -/
theorem C5_schema_patcher_behavior (s : ActivitySchema) (h : Host)
    (g idv : String) (ty : DatasetManagementActivityType)
    (cx : ActivityCreateContext) (d : ActivityCreateData) :
    ("activity_type_exists" ∉ s.activity_type →
      (patchActivitySchema s).activity_type = s.activity_type) ∧
    (∀ l₁ l₂, s.activity_type = l₁ ++ "activity_type_exists" :: l₂ →
      "activity_type_exists" ∉ l₁ →
      (patchActivitySchema s).activity_type = l₁ ++ l₂) ∧
    ("object_id_validator" ∉ s.object_id →
      (patchActivitySchema s).object_id =
        s.object_id ++ ["package_id_exists"]) ∧
    (∀ l₁ l₂, s.object_id = l₁ ++ "object_id_validator" :: l₂ →
      "object_id_validator" ∉ l₁ →
      (patchActivitySchema s).object_id = (l₁ ++ l₂) ++ ["package_id_exists"]) ∧
    (Event.activityCreate cx d ∈
        (_create_dataset_management_activity h g idv ty).1 →
      cx.schema = patchActivitySchema h.defaultCreateActivitySchema ∧
        cx.schema.object_id.getLast? = some "package_id_exists") := by
  refine ⟨?_, ?_, ?_, ?_, ?_⟩
  · intro hn
    simp [patchActivitySchema, removeFirstNamed_of_not_mem _ _ hn]
  · intro l₁ l₂ he hn
    simp [patchActivitySchema, he, removeFirstNamed_append_cons _ _ _ hn]
  · intro hn
    simp [patchActivitySchema, removeFirstNamed_of_not_mem _ _ hn]
  · intro l₁ l₂ he hn
    simp [patchActivitySchema, he, removeFirstNamed_append_cons _ _ _ hn]
  · intro hmem
    rw [create_activity_eq] at hmem
    cases hps : h.packageShow idv with
    | error e => rw [hps] at hmem; simp at hmem
    | ok ds =>
        rw [hps] at hmem
        simp only [List.mem_cons, List.not_mem_nil, or_false] at hmem
        rcases hmem with h1 | h1
        · exact absurd h1 (by simp)
        · have hcx : cx = activityCtx h := by
            injection h1 with hcxe hde
          rw [hcx]
          refine ⟨rfl, ?_⟩
          simp [activityCtx, patchActivitySchema]

theorem C5_schema_patcher_behavior_witness :
    (patchActivitySchema sampleSchema).activity_type = ["not_missing"] ∧
      (patchActivitySchema sampleSchema).object_id =
        ["not_missing", "package_id_exists"] ∧
      (patchActivitySchema
          { activity_type := ["keep_a"], object_id := ["keep_b"] }).activity_type =
        ["keep_a"] ∧
      (patchActivitySchema
          { activity_type := ["keep_a"], object_id := ["keep_b"] }).object_id =
        ["keep_b", "package_id_exists"] ∧
      (activityCtx okHost).schema =
        patchActivitySchema okHost.defaultCreateActivitySchema := by
  have h1 := C5_schema_patcher_behavior sampleSchema okHost "g-user" "p1"
    DatasetManagementActivityType.REQUEST_MAINTENANCE (activityCtx okHost)
    (activityData "g-user" "p1" DatasetManagementActivityType.REQUEST_MAINTENANCE
      "dataset-p1")
  have h2 := C5_schema_patcher_behavior
    { activity_type := ["keep_a"], object_id := ["keep_b"] } okHost "g-user" "p1"
    DatasetManagementActivityType.REQUEST_MAINTENANCE (activityCtx okHost)
    (activityData "g-user" "p1" DatasetManagementActivityType.REQUEST_MAINTENANCE
      "dataset-p1")
  refine ⟨?_, ?_, ?_, ?_, ?_⟩
  · exact (h1.2.1 ["not_missing"] [] rfl (by decide)).trans rfl
  · exact (h1.2.2.2.1 ["not_missing"] [] rfl (by decide)).trans rfl
  · exact h2.1 (by decide)
  · exact (h2.2.2.1 (by decide)).trans rfl
  · exact (h1.2.2.2.2 (by decide)).1

/-- Rank of each host call in the intended step order of a request run:
dataset show and activity creation, then the notification preference patch,
then the follow attempt, then the job enqueue. -/
def stepRank : Event → Nat
  | Event.packageShow _ => 0
  | Event.activityCreate _ _ => 1
  | Event.userPatch _ => 2
  | Event.followDataset _ => 3
  | Event.enqueueJob _ _ => 4

/-- Helper: every request run issues its host calls in strictly increasing
step order, and an error outcome means no job was enqueued and the error is
the one raised by one of the four host steps. -/
theorem requestRun_ordered (h : Host) (g : String) (c : Context) (pkg : String)
    (an : String) (ty : DatasetManagementActivityType) :
    List.Chain' (· < ·) (((requestRun h g c pkg an ty).1).map stepRank) ∧
    (∀ e, (requestRun h g c pkg an ty).2 = Except.error e →
      (∀ j a, Event.enqueueJob j a ∉ (requestRun h g c pkg an ty).1) ∧
      (h.checkAccess an = true →
        (h.packageShow pkg = Except.error e ∨
          (∃ ds, h.packageShow pkg = Except.ok ds ∧
            h.activityCreate (activityCtx h) (activityData g pkg ty ds) =
              Except.error e) ∨
          h.userPatch (notifPatch c) = Except.error e ∨
          h.followDataset pkg = Except.error e))) := by
  rcases requestRun_cases h g c pkg an ty with
    ⟨hca, hrun⟩ |
    ⟨hca, ⟨e0, hps, hrun⟩ |
      ⟨ds, hps, ⟨e0, hac, hrun⟩ |
        ⟨act, hac, ⟨e0, hup, hrun⟩ |
          ⟨hup, ⟨e0, hfd, hnv, hrun⟩ | ⟨hfd, hrun⟩⟩⟩⟩⟩
  · constructor
    · rw [hrun]; simp
    · intro e he
      constructor
      · intro j a hmem; rw [hrun] at hmem; simp at hmem
      · intro hca'; simp [hca] at hca'
  · constructor
    · rw [hrun]; simp
    · intro e he
      rw [hrun] at he
      simp only at he
      injection he with he'
      subst he'
      constructor
      · intro j a hmem; rw [hrun] at hmem; simp at hmem
      · intro _; exact Or.inl hps
  · constructor
    · rw [hrun]
      simp [stepRank, List.chain'_cons, List.chain'_singleton]
    · intro e he
      rw [hrun] at he
      simp only at he
      injection he with he'
      subst he'
      constructor
      · intro j a hmem; rw [hrun] at hmem; simp at hmem
      · intro _; exact Or.inr (Or.inl ⟨ds, hps, hac⟩)
  · constructor
    · rw [hrun]
      simp [stepRank, List.chain'_cons, List.chain'_singleton]
    · intro e he
      rw [hrun] at he
      simp only at he
      injection he with he'
      subst he'
      constructor
      · intro j a hmem; rw [hrun] at hmem; simp at hmem
      · intro _; exact Or.inr (Or.inr (Or.inl hup))
  · constructor
    · rw [hrun]
      simp [stepRank, List.chain'_cons, List.chain'_singleton]
    · intro e he
      rw [hrun] at he
      simp only at he
      injection he with he'
      subst he'
      constructor
      · intro j a hmem; rw [hrun] at hmem; simp at hmem
      · intro _; exact Or.inr (Or.inr (Or.inr hfd))
  · constructor
    · rw [hrun]
      simp [stepRank, List.chain'_cons, List.chain'_singleton]
    · intro e he
      rw [hrun] at he
      simp at he

/-- C2: for every call to either request handler, the host steps run in
order (create activity, set the email-notification preference, follow the
dataset, enqueue the job); when any exception propagates, the call aborts
with the exception raised by one of those host steps and the background
job is never enqueued. -/
theorem C2_step_order_and_abort (h : Host) (g : String) (c : Context)
    (pkg : String) :
    (List.Chain' (· < ·)
        (((request_dataset_maintenance h g c pkg).1).map stepRank) ∧
      (∀ e, (request_dataset_maintenance h g c pkg).2 = Except.error e →
        (∀ j a,
          Event.enqueueJob j a ∉ (request_dataset_maintenance h g c pkg).1) ∧
        (h.checkAccess "emc_request_dataset_maintenance" = true →
          (h.packageShow pkg = Except.error e ∨
            (∃ ds, h.packageShow pkg = Except.ok ds ∧
              h.activityCreate (activityCtx h)
                  (activityData g pkg
                    DatasetManagementActivityType.REQUEST_MAINTENANCE ds) =
                Except.error e) ∨
            h.userPatch (notifPatch c) = Except.error e ∨
            h.followDataset pkg = Except.error e)))) ∧
    (List.Chain' (· < ·)
        (((request_dataset_publication h g c pkg).1).map stepRank) ∧
      (∀ e, (request_dataset_publication h g c pkg).2 = Except.error e →
        (∀ j a,
          Event.enqueueJob j a ∉ (request_dataset_publication h g c pkg).1) ∧
        (h.checkAccess "emc_request_dataset_publication" = true →
          (h.packageShow pkg = Except.error e ∨
            (∃ ds, h.packageShow pkg = Except.ok ds ∧
              h.activityCreate (activityCtx h)
                  (activityData g pkg
                    DatasetManagementActivityType.REQUEST_PUBLICATION ds) =
                Except.error e) ∨
            h.userPatch (notifPatch c) = Except.error e ∨
            h.followDataset pkg = Except.error e)))) := by
  constructor
  · rw [maintenance_eq_requestRun]
    exact requestRun_ordered h g c pkg "emc_request_dataset_maintenance"
      DatasetManagementActivityType.REQUEST_MAINTENANCE
  · rw [publication_eq_requestRun]
    exact requestRun_ordered h g c pkg "emc_request_dataset_publication"
      DatasetManagementActivityType.REQUEST_PUBLICATION

theorem C2_step_order_and_abort_witness :
    List.Chain' (· < ·)
        (((request_dataset_maintenance failShowHost "g-user" sampleCtx "p1").1).map
          stepRank) ∧
      Event.enqueueJob notifyJobName ["act-1"] ∉
        (request_dataset_maintenance failShowHost "g-user" sampleCtx "p1").1 ∧
      (failShowHost.packageShow "p1" = Except.error (Exn.OtherError 3) ∨
        (∃ ds, failShowHost.packageShow "p1" = Except.ok ds ∧
          failShowHost.activityCreate (activityCtx failShowHost)
              (activityData "g-user" "p1"
                DatasetManagementActivityType.REQUEST_MAINTENANCE ds) =
            Except.error (Exn.OtherError 3)) ∨
        failShowHost.userPatch (notifPatch sampleCtx) =
          Except.error (Exn.OtherError 3) ∨
        failShowHost.followDataset "p1" = Except.error (Exn.OtherError 3)) := by
  have h := (C2_step_order_and_abort failShowHost "g-user" sampleCtx "p1").1
  have h2 := h.2 (Exn.OtherError 3) rfl
  exact ⟨h.1, h2.1 notifyJobName ["act-1"], h2.2 rfl⟩

/-- Helper: with authorization granted and a failing dataset show, a
request run stops after the show call and propagates its error. -/
theorem requestRun_packageShow_error (h : Host) (g : String) (c : Context)
    (pkg an : String) (ty : DatasetManagementActivityType) (e : Exn)
    (hca : h.checkAccess an = true)
    (hps : h.packageShow pkg = Except.error e) :
    requestRun h g c pkg an ty =
      ([Event.packageShow pkg], Except.error e) := by
  simp [requestRun, hca, _create_dataset_management_activity, hps]

/-- Helper: with authorization granted, a successful show and a failing
activity creation, a request run stops after the creation call and
propagates its error. -/
theorem requestRun_activityCreate_error (h : Host) (g : String) (c : Context)
    (pkg an : String) (ty : DatasetManagementActivityType) (ds : Package)
    (e : Exn) (hca : h.checkAccess an = true)
    (hps : h.packageShow pkg = Except.ok ds)
    (hac : h.activityCreate (activityCtx h) (activityData g pkg ty ds) =
      Except.error e) :
    requestRun h g c pkg an ty =
      ([Event.packageShow pkg,
        Event.activityCreate (activityCtx h) (activityData g pkg ty ds)],
        Except.error e) := by
  simp only [requestRun, hca, if_true, create_activity_eq, hps]
  simp [hac]

/-- Helper: with the activity created and a failing user patch, a request
run stops after the patch call and propagates its error. -/
theorem requestRun_userPatch_error (h : Host) (g : String) (c : Context)
    (pkg an : String) (ty : DatasetManagementActivityType) (ds : Package)
    (act : Activity) (e : Exn) (hca : h.checkAccess an = true)
    (hps : h.packageShow pkg = Except.ok ds)
    (hac : h.activityCreate (activityCtx h) (activityData g pkg ty ds) =
      Except.ok act)
    (hup : h.userPatch (notifPatch c) = Except.error e) :
    requestRun h g c pkg an ty =
      ([Event.packageShow pkg,
        Event.activityCreate (activityCtx h) (activityData g pkg ty ds),
        Event.userPatch (notifPatch c)], Except.error e) := by
  have hup' : h.userPatch
      { id := c.user, activity_streams_email_notifications := true } =
      Except.error e := by simpa [notifPatch] using hup
  simp only [requestRun, hca, if_true, create_activity_eq, hps]
  simp only [hac, _ensure_user_is_notifiable]
  simp [hup', notifPatch]

/-- Helper: with all earlier steps successful, a ValidationError from the
follow attempt is swallowed whatever its reason, and the run completes,
enqueueing the job with the created activity id. -/
theorem requestRun_follow_validation_swallowed (h : Host) (g : String)
    (c : Context) (pkg an : String) (ty : DatasetManagementActivityType)
    (ds : Package) (act : Activity) (r : ValidationReason)
    (hca : h.checkAccess an = true)
    (hps : h.packageShow pkg = Except.ok ds)
    (hac : h.activityCreate (activityCtx h) (activityData g pkg ty ds) =
      Except.ok act)
    (hup : h.userPatch (notifPatch c) = Except.ok ())
    (hfd : h.followDataset pkg = Except.error (Exn.ValidationError r)) :
    requestRun h g c pkg an ty =
      ([Event.packageShow pkg,
        Event.activityCreate (activityCtx h) (activityData g pkg ty ds),
        Event.userPatch (notifPatch c),
        Event.followDataset pkg,
        Event.enqueueJob notifyJobName [act.id]], Except.ok ()) := by
  have hup' : h.userPatch
      { id := c.user, activity_streams_email_notifications := true } =
      Except.ok () := by simpa [notifPatch] using hup
  simp only [requestRun, hca, if_true, create_activity_eq, hps]
  simp only [hac, _ensure_user_is_notifiable]
  simp [hup', hfd, notifPatch]

/-- Helper: with all earlier steps successful and the follow attempt
succeeding, the run completes, enqueueing the job with the created
activity id. -/
theorem requestRun_follow_ok (h : Host) (g : String) (c : Context)
    (pkg an : String) (ty : DatasetManagementActivityType) (ds : Package)
    (act : Activity) (hca : h.checkAccess an = true)
    (hps : h.packageShow pkg = Except.ok ds)
    (hac : h.activityCreate (activityCtx h) (activityData g pkg ty ds) =
      Except.ok act)
    (hup : h.userPatch (notifPatch c) = Except.ok ())
    (hfd : h.followDataset pkg = Except.ok ()) :
    requestRun h g c pkg an ty =
      ([Event.packageShow pkg,
        Event.activityCreate (activityCtx h) (activityData g pkg ty ds),
        Event.userPatch (notifPatch c),
        Event.followDataset pkg,
        Event.enqueueJob notifyJobName [act.id]], Except.ok ()) := by
  have hup' : h.userPatch
      { id := c.user, activity_streams_email_notifications := true } =
      Except.ok () := by simpa [notifPatch] using hup
  simp only [requestRun, hca, if_true, create_activity_eq, hps]
  simp only [hac, _ensure_user_is_notifiable]
  simp [hup', hfd, notifPatch]

/-- C3 counterexample: the code swallows a ValidationError from the follow
attempt even when its reason is not the already-following case, so the
claim that such an error is propagated to the caller is false: on this
host the follow attempt fails with an unrelated ValidationError, the
attempt is in the trace, and the call still succeeds. -/
theorem C3_counterexample_other_validation_swallowed :
    otherValidationHost.followDataset "p1" =
        Except.error (Exn.ValidationError (ValidationReason.otherReason 7)) ∧
      ValidationReason.otherReason 7 ≠ ValidationReason.alreadyFollowing ∧
      Event.followDataset "p1" ∈
        (request_dataset_maintenance otherValidationHost "g-user" sampleCtx
          "p1").1 ∧
      (request_dataset_maintenance otherValidationHost "g-user" sampleCtx
          "p1").2 =
        Except.ok () := by
  refine ⟨rfl, by decide, by decide, rfl⟩

/-- C3 (amended): a ValidationError is swallowed exactly when it is raised
by the follow attempt, regardless of the reason it reports, and is
propagated when raised by the dataset show, the activity creation or the
user patch; a call whose follow attempt reports a duplicate follow still
completes, records its activity-creation call and enqueues its job, so a
repeated request does not raise and still creates a second activity and
job. -/
theorem C3_validation_swallow_amended (h : Host) (g : String) (c : Context)
    (pkg : String) (r : ValidationReason) (ds : Package) (act : Activity) :
    (h.checkAccess "emc_request_dataset_maintenance" = true →
      h.packageShow pkg = Except.ok ds →
      h.activityCreate (activityCtx h)
          (activityData g pkg
            DatasetManagementActivityType.REQUEST_MAINTENANCE ds) =
        Except.ok act →
      h.userPatch (notifPatch c) = Except.ok () →
      h.followDataset pkg = Except.error (Exn.ValidationError r) →
      request_dataset_maintenance h g c pkg =
        ([Event.packageShow pkg,
          Event.activityCreate (activityCtx h)
            (activityData g pkg
              DatasetManagementActivityType.REQUEST_MAINTENANCE ds),
          Event.userPatch (notifPatch c),
          Event.followDataset pkg,
          Event.enqueueJob notifyJobName [act.id]], Except.ok ())) ∧
    (h.checkAccess "emc_request_dataset_publication" = true →
      h.packageShow pkg = Except.ok ds →
      h.activityCreate (activityCtx h)
          (activityData g pkg
            DatasetManagementActivityType.REQUEST_PUBLICATION ds) =
        Except.ok act →
      h.userPatch (notifPatch c) = Except.ok () →
      h.followDataset pkg = Except.error (Exn.ValidationError r) →
      request_dataset_publication h g c pkg =
        ([Event.packageShow pkg,
          Event.activityCreate (activityCtx h)
            (activityData g pkg
              DatasetManagementActivityType.REQUEST_PUBLICATION ds),
          Event.userPatch (notifPatch c),
          Event.followDataset pkg,
          Event.enqueueJob notifyJobName [act.id]], Except.ok ())) ∧
    (h.checkAccess "emc_request_dataset_maintenance" = true →
      h.packageShow pkg = Except.error (Exn.ValidationError r) →
      (request_dataset_maintenance h g c pkg).2 =
        Except.error (Exn.ValidationError r)) ∧
    (h.checkAccess "emc_request_dataset_maintenance" = true →
      h.packageShow pkg = Except.ok ds →
      h.activityCreate (activityCtx h)
          (activityData g pkg
            DatasetManagementActivityType.REQUEST_MAINTENANCE ds) =
        Except.error (Exn.ValidationError r) →
      (request_dataset_maintenance h g c pkg).2 =
        Except.error (Exn.ValidationError r)) ∧
    (h.checkAccess "emc_request_dataset_maintenance" = true →
      h.packageShow pkg = Except.ok ds →
      h.activityCreate (activityCtx h)
          (activityData g pkg
            DatasetManagementActivityType.REQUEST_MAINTENANCE ds) =
        Except.ok act →
      h.userPatch (notifPatch c) = Except.error (Exn.ValidationError r) →
      (request_dataset_maintenance h g c pkg).2 =
        Except.error (Exn.ValidationError r)) := by
  refine ⟨?_, ?_, ?_, ?_, ?_⟩
  · intro hca hps hac hup hfd
    rw [maintenance_eq_requestRun]
    exact requestRun_follow_validation_swallowed h g c pkg _ _ ds act r hca
      hps hac hup hfd
  · intro hca hps hac hup hfd
    rw [publication_eq_requestRun]
    exact requestRun_follow_validation_swallowed h g c pkg _ _ ds act r hca
      hps hac hup hfd
  · intro hca hps
    rw [maintenance_eq_requestRun,
      requestRun_packageShow_error h g c pkg _ _ _ hca hps]
  · intro hca hps hac
    rw [maintenance_eq_requestRun,
      requestRun_activityCreate_error h g c pkg _ _ ds _ hca hps hac]
  · intro hca hps hac hup
    rw [maintenance_eq_requestRun,
      requestRun_userPatch_error h g c pkg _ _ ds act _ hca hps hac hup]

theorem C3_validation_swallow_amended_witness :
    request_dataset_maintenance alreadyFollowingHost "g-user" sampleCtx "p1" =
      ([Event.packageShow "p1",
        Event.activityCreate (activityCtx alreadyFollowingHost)
          (activityData "g-user" "p1"
            DatasetManagementActivityType.REQUEST_MAINTENANCE "dataset-p1"),
        Event.userPatch (notifPatch sampleCtx),
        Event.followDataset "p1",
        Event.enqueueJob notifyJobName ["act-1"]], Except.ok ()) :=
  (C3_validation_swallow_amended alreadyFollowingHost "g-user" sampleCtx "p1"
    ValidationReason.alreadyFollowing "dataset-p1"
    { id := "act-1" }).1 rfl rfl rfl rfl rfl

/-- Recognizer for activity-creation calls in a trace. -/
def isActivityCreateEvent : Event → Bool
  | Event.activityCreate _ _ => true
  | _ => false

/-- Recognizer for job-enqueue calls in a trace. -/
def isEnqueueJobEvent : Event → Bool
  | Event.enqueueJob _ _ => true
  | _ => false

/-- Helper: an authorized, successful request run issued exactly one
activity-creation call, carrying the patched schema context and the data
built from the shown dataset, and exactly one enqueue call carrying the
created activity id. -/
theorem requestRun_success_shape (h : Host) (g : String) (c : Context)
    (pkg an : String) (ty : DatasetManagementActivityType)
    (hca : h.checkAccess an = true)
    (hok : (requestRun h g c pkg an ty).2 = Except.ok ()) :
    ∃ ds act,
      h.packageShow pkg = Except.ok ds ∧
      h.activityCreate (activityCtx h) (activityData g pkg ty ds) =
        Except.ok act ∧
      (requestRun h g c pkg an ty).1.filter isActivityCreateEvent =
        [Event.activityCreate (activityCtx h) (activityData g pkg ty ds)] ∧
      (requestRun h g c pkg an ty).1.filter isEnqueueJobEvent =
        [Event.enqueueJob notifyJobName [act.id]] := by
  rcases requestRun_cases h g c pkg an ty with
    ⟨hca', hrun⟩ |
    ⟨hca', ⟨e0, hps, hrun⟩ |
      ⟨ds, hps, ⟨e0, hac, hrun⟩ |
        ⟨act, hac, ⟨e0, hup, hrun⟩ |
          ⟨hup, ⟨e0, hfd, hnv, hrun⟩ | ⟨hfd, hrun⟩⟩⟩⟩⟩
  · rw [hca'] at hca; cases hca
  · rw [hrun] at hok; simp at hok
  · rw [hrun] at hok; simp at hok
  · rw [hrun] at hok; simp at hok
  · rw [hrun] at hok; simp at hok
  · refine ⟨ds, act, hps, hac, ?_, ?_⟩ <;>
      · rw [hrun]
        simp [isActivityCreateEvent, isEnqueueJobEvent]

/-- C6: every authorized, successful maintenance or publication request
issued exactly one activity-creation call, whose object id is the dataset
id, whose activity type is the operation custom type, and whose data
embeds the dataset representation returned by the dataset-show action, and
exactly one job-enqueue call carrying the created activity id. -/
theorem C6_one_activity_one_job (h : Host) (g : String) (c : Context)
    (pkg : String) :
    (h.checkAccess "emc_request_dataset_maintenance" = true →
      (request_dataset_maintenance h g c pkg).2 = Except.ok () →
      ∃ ds act,
        h.packageShow pkg = Except.ok ds ∧
        h.activityCreate (activityCtx h)
            (activityData g pkg
              DatasetManagementActivityType.REQUEST_MAINTENANCE ds) =
          Except.ok act ∧
        (request_dataset_maintenance h g c pkg).1.filter
            isActivityCreateEvent =
          [Event.activityCreate (activityCtx h)
            (activityData g pkg
              DatasetManagementActivityType.REQUEST_MAINTENANCE ds)] ∧
        (request_dataset_maintenance h g c pkg).1.filter isEnqueueJobEvent =
          [Event.enqueueJob notifyJobName [act.id]]) ∧
    (h.checkAccess "emc_request_dataset_publication" = true →
      (request_dataset_publication h g c pkg).2 = Except.ok () →
      ∃ ds act,
        h.packageShow pkg = Except.ok ds ∧
        h.activityCreate (activityCtx h)
            (activityData g pkg
              DatasetManagementActivityType.REQUEST_PUBLICATION ds) =
          Except.ok act ∧
        (request_dataset_publication h g c pkg).1.filter
            isActivityCreateEvent =
          [Event.activityCreate (activityCtx h)
            (activityData g pkg
              DatasetManagementActivityType.REQUEST_PUBLICATION ds)] ∧
        (request_dataset_publication h g c pkg).1.filter isEnqueueJobEvent =
          [Event.enqueueJob notifyJobName [act.id]]) := by
  constructor
  · intro hca hok
    exact requestRun_success_shape h g c pkg "emc_request_dataset_maintenance"
      DatasetManagementActivityType.REQUEST_MAINTENANCE hca hok
  · intro hca hok
    exact requestRun_success_shape h g c pkg "emc_request_dataset_publication"
      DatasetManagementActivityType.REQUEST_PUBLICATION hca hok

theorem C6_one_activity_one_job_witness :
    ∃ ds act,
      okHost.packageShow "p1" = Except.ok ds ∧
      okHost.activityCreate (activityCtx okHost)
          (activityData "g-user" "p1"
            DatasetManagementActivityType.REQUEST_MAINTENANCE ds) =
        Except.ok act ∧
      (request_dataset_maintenance okHost "g-user" sampleCtx "p1").1.filter
          isActivityCreateEvent =
        [Event.activityCreate (activityCtx okHost)
          (activityData "g-user" "p1"
            DatasetManagementActivityType.REQUEST_MAINTENANCE ds)] ∧
      (request_dataset_maintenance okHost "g-user" sampleCtx "p1").1.filter
          isEnqueueJobEvent =
        [Event.enqueueJob notifyJobName [act.id]] :=
  (C6_one_activity_one_job okHost "g-user" sampleCtx "p1").1 rfl rfl

/-- Helper: every activity-creation call in a request-run trace carries the
patched-schema context with ignore_auth and data built from the shown
dataset, the global user id, the dataset id and the activity type value. -/
theorem mem_activityCreate_requestRun (h : Host) (g : String) (c : Context)
    (pkg an : String) (ty : DatasetManagementActivityType)
    (cx : ActivityCreateContext) (d : ActivityCreateData)
    (hmem : Event.activityCreate cx d ∈ (requestRun h g c pkg an ty).1) :
    cx = activityCtx h ∧
      ∃ ds, h.packageShow pkg = Except.ok ds ∧
        d = activityData g pkg ty ds := by
  rcases requestRun_cases h g c pkg an ty with
    ⟨hca', hrun⟩ |
    ⟨hca', ⟨e0, hps, hrun⟩ |
      ⟨ds, hps, ⟨e0, hac, hrun⟩ |
        ⟨act, hac, ⟨e0, hup, hrun⟩ |
          ⟨hup, ⟨e0, hfd, hnv, hrun⟩ | ⟨hfd, hrun⟩⟩⟩⟩⟩ <;>
    rw [hrun] at hmem <;> simp at hmem <;>
    exact ⟨hmem.1, ds, hps, hmem.2⟩

/-- Helper: every user-patch call in a request-run trace carries the
context user id with the email-notification flag set true. -/
theorem mem_userPatch_requestRun (h : Host) (g : String) (c : Context)
    (pkg an : String) (ty : DatasetManagementActivityType)
    (dp : UserPatchData)
    (hmem : Event.userPatch dp ∈ (requestRun h g c pkg an ty).1) :
    dp = notifPatch c := by
  rcases requestRun_cases h g c pkg an ty with
    ⟨hca', hrun⟩ |
    ⟨hca', ⟨e0, hps, hrun⟩ |
      ⟨ds, hps, ⟨e0, hac, hrun⟩ |
        ⟨act, hac, ⟨e0, hup, hrun⟩ |
          ⟨hup, ⟨e0, hfd, hnv, hrun⟩ | ⟨hfd, hrun⟩⟩⟩⟩⟩ <;>
    rw [hrun] at hmem <;> simp at hmem <;> exact hmem

/-- C9: every activity-creation call issued by either request handler
carries a context whose ignore_auth flag is true, so the host
authorization check for the activity-create action is bypassed regardless
of the caller. -/
theorem C9_activity_create_ignores_auth (h : Host) (g : String) (c : Context)
    (pkg : String) (cx : ActivityCreateContext) (d : ActivityCreateData) :
    (Event.activityCreate cx d ∈ (request_dataset_maintenance h g c pkg).1 ∨
      Event.activityCreate cx d ∈ (request_dataset_publication h g c pkg).1) →
    cx.ignore_auth = true := by
  intro hm
  rcases hm with hm | hm
  · have hx := mem_activityCreate_requestRun h g c pkg
      "emc_request_dataset_maintenance"
      DatasetManagementActivityType.REQUEST_MAINTENANCE cx d hm
    rw [hx.1]
    rfl
  · have hx := mem_activityCreate_requestRun h g c pkg
      "emc_request_dataset_publication"
      DatasetManagementActivityType.REQUEST_PUBLICATION cx d hm
    rw [hx.1]
    rfl

theorem C9_activity_create_ignores_auth_witness :
    (activityCtx okHost).ignore_auth = true :=
  C9_activity_create_ignores_auth okHost "g-user" sampleCtx "p1"
    (activityCtx okHost)
    (activityData "g-user" "p1"
      DatasetManagementActivityType.REQUEST_MAINTENANCE "dataset-p1")
    (Or.inl (by decide))

/-- C10: in every request run the user id on the activity-creation data is
the global request user object id, while the user patched for email
notifications is the context user; the two come from different sources and
a run with distinct identities still succeeds, recording both, with no
equality check between them. -/
theorem C10_identity_sources (h : Host) (g : String) (c : Context)
    (pkg : String) (cx : ActivityCreateContext) (d : ActivityCreateData)
    (dp : UserPatchData) :
    ((Event.activityCreate cx d ∈ (request_dataset_maintenance h g c pkg).1 ∨
        Event.activityCreate cx d ∈
          (request_dataset_publication h g c pkg).1) →
      d.user_id = g) ∧
    ((Event.userPatch dp ∈ (request_dataset_maintenance h g c pkg).1 ∨
        Event.userPatch dp ∈ (request_dataset_publication h g c pkg).1) →
      dp.id = c.user) ∧
    (("g-user" : String) ≠ sampleCtx.user ∧
      (request_dataset_maintenance okHost "g-user" sampleCtx "p1").2 =
        Except.ok () ∧
      Event.activityCreate (activityCtx okHost)
          (activityData "g-user" "p1"
            DatasetManagementActivityType.REQUEST_MAINTENANCE "dataset-p1") ∈
        (request_dataset_maintenance okHost "g-user" sampleCtx "p1").1 ∧
      Event.userPatch (notifPatch sampleCtx) ∈
        (request_dataset_maintenance okHost "g-user" sampleCtx "p1").1) := by
  refine ⟨?_, ?_, by decide, rfl, by decide, by decide⟩
  · intro hm
    rcases hm with hm | hm
    · rcases (mem_activityCreate_requestRun h g c pkg
        "emc_request_dataset_maintenance"
        DatasetManagementActivityType.REQUEST_MAINTENANCE cx d hm).2 with
        ⟨ds, _, hd⟩
      rw [hd]; rfl
    · rcases (mem_activityCreate_requestRun h g c pkg
        "emc_request_dataset_publication"
        DatasetManagementActivityType.REQUEST_PUBLICATION cx d hm).2 with
        ⟨ds, _, hd⟩
      rw [hd]; rfl
  · intro hm
    rcases hm with hm | hm
    · rw [mem_userPatch_requestRun h g c pkg
        "emc_request_dataset_maintenance"
        DatasetManagementActivityType.REQUEST_MAINTENANCE dp hm]
      rfl
    · rw [mem_userPatch_requestRun h g c pkg
        "emc_request_dataset_publication"
        DatasetManagementActivityType.REQUEST_PUBLICATION dp hm]
      rfl

theorem C10_identity_sources_witness :
    (activityData "g-user" "p1"
        DatasetManagementActivityType.REQUEST_MAINTENANCE
        "dataset-p1").user_id = "g-user" ∧
      (notifPatch sampleCtx).id = sampleCtx.user :=
  ⟨(C10_identity_sources okHost "g-user" sampleCtx "p1" (activityCtx okHost)
      (activityData "g-user" "p1"
        DatasetManagementActivityType.REQUEST_MAINTENANCE "dataset-p1")
      (notifPatch sampleCtx)).1 (Or.inl (by decide)),
    (C10_identity_sources okHost "g-user" sampleCtx "p1" (activityCtx okHost)
      (activityData "g-user" "p1"
        DatasetManagementActivityType.REQUEST_MAINTENANCE "dataset-p1")
      (notifPatch sampleCtx)).2.1 (Or.inl (by decide))⟩

/-- Renaming of the one value that distinguishes the two request handlers
in the activity-create data: the maintenance activity type becomes the
publication activity type. -/
def retypeActivityData (d : ActivityCreateData) : ActivityCreateData :=
  { d with
    activity_type :=
      if d.activity_type = DatasetManagementActivityType.REQUEST_MAINTENANCE.value
      then DatasetManagementActivityType.REQUEST_PUBLICATION.value
      else d.activity_type }

/-- The renaming lifted to trace events: only activity-create calls are
affected, and only in their activity type value. -/
def retypeEvent : Event → Event
  | Event.activityCreate cx d => Event.activityCreate cx (retypeActivityData d)
  | Event.packageShow i => Event.packageShow i
  | Event.userPatch dp => Event.userPatch dp
  | Event.followDataset i => Event.followDataset i
  | Event.enqueueJob j a => Event.enqueueJob j a

/-- The host transported along the two renamings that distinguish the
handlers: the maintenance authorization name answers as the publication
one, and activity creation receives the retyped data. -/
def transportHost (h : Host) : Host :=
  { h with
    checkAccess := fun name =>
      if name = "emc_request_dataset_maintenance"
      then h.checkAccess "emc_request_dataset_publication"
      else h.checkAccess name,
    activityCreate := fun cx d => h.activityCreate cx (retypeActivityData d) }

theorem transport_activityCtx (h : Host) :
    activityCtx (transportHost h) = activityCtx h := rfl

theorem retype_activityData_value (g pkg : String) (ds : Package) :
    retypeActivityData
        (activityData g pkg
          DatasetManagementActivityType.REQUEST_MAINTENANCE ds) =
      activityData g pkg
        DatasetManagementActivityType.REQUEST_PUBLICATION ds := by
  simp [retypeActivityData, activityData, DatasetManagementActivityType.value]

theorem transport_activityCreate (h : Host) (g pkg : String) (ds : Package) :
    (transportHost h).activityCreate (activityCtx (transportHost h))
        (activityData g pkg
          DatasetManagementActivityType.REQUEST_MAINTENANCE ds) =
      h.activityCreate (activityCtx h)
        (activityData g pkg
          DatasetManagementActivityType.REQUEST_PUBLICATION ds) := by
  show h.activityCreate (activityCtx (transportHost h))
      (retypeActivityData
        (activityData g pkg
          DatasetManagementActivityType.REQUEST_MAINTENANCE ds)) = _
  rw [transport_activityCtx, retype_activityData_value]

/-- C7: the two request handlers are the same operation up to renaming:
running publication on a host equals running maintenance on the
transported host (which answers the maintenance authorization name as the
publication one and retypes the activity data), with the trace carried
across by the event renaming; so they issue the same host calls with the
same arguments, differing only in the activity type value and the
authorization name. -/
theorem C7_publication_is_retyped_maintenance (h : Host) (g : String)
    (c : Context) (pkg : String) :
    request_dataset_publication h g c pkg =
      (((request_dataset_maintenance (transportHost h) g c pkg).1).map
          retypeEvent,
        (request_dataset_maintenance (transportHost h) g c pkg).2) := by
  rw [publication_eq_requestRun, maintenance_eq_requestRun]
  rcases requestRun_cases (transportHost h) g c pkg
      "emc_request_dataset_maintenance"
      DatasetManagementActivityType.REQUEST_MAINTENANCE with
    ⟨hca', hrun⟩ |
    ⟨hca', ⟨e0, hps, hrun⟩ |
      ⟨ds, hps, ⟨e0, hac, hrun⟩ |
        ⟨act, hac, ⟨e0, hup, hrun⟩ |
          ⟨hup, ⟨e0, hfd, hnv, hrun⟩ | ⟨hfdok, hrun⟩⟩⟩⟩⟩
  · have hfalse : h.checkAccess "emc_request_dataset_publication" = false := by
      simpa [transportHost] using hca'
    have hpub : requestRun h g c pkg "emc_request_dataset_publication"
        DatasetManagementActivityType.REQUEST_PUBLICATION =
        ([], Except.error Exn.NotAuthorized) := by
      simp [requestRun, hfalse]
    rw [hrun, hpub]
    simp
  · have hca : h.checkAccess "emc_request_dataset_publication" = true := by
      simpa [transportHost] using hca'
    rw [hrun, requestRun_packageShow_error h g c pkg
      "emc_request_dataset_publication"
      DatasetManagementActivityType.REQUEST_PUBLICATION e0 hca hps]
    simp [retypeEvent]
  · have hca : h.checkAccess "emc_request_dataset_publication" = true := by
      simpa [transportHost] using hca'
    have hac' : h.activityCreate (activityCtx h)
        (activityData g pkg
          DatasetManagementActivityType.REQUEST_PUBLICATION ds) =
        Except.error e0 :=
      (transport_activityCreate h g pkg ds).symm.trans hac
    rw [hrun, requestRun_activityCreate_error h g c pkg
      "emc_request_dataset_publication"
      DatasetManagementActivityType.REQUEST_PUBLICATION ds e0 hca hps hac']
    simp [retypeEvent, transport_activityCtx, retype_activityData_value]
  · have hca : h.checkAccess "emc_request_dataset_publication" = true := by
      simpa [transportHost] using hca'
    have hac' : h.activityCreate (activityCtx h)
        (activityData g pkg
          DatasetManagementActivityType.REQUEST_PUBLICATION ds) =
        Except.ok act :=
      (transport_activityCreate h g pkg ds).symm.trans hac
    rw [hrun, requestRun_userPatch_error h g c pkg
      "emc_request_dataset_publication"
      DatasetManagementActivityType.REQUEST_PUBLICATION ds act e0 hca hps
      hac' hup]
    simp [retypeEvent, transport_activityCtx, retype_activityData_value]
  · have hca : h.checkAccess "emc_request_dataset_publication" = true := by
      simpa [transportHost] using hca'
    have hac' : h.activityCreate (activityCtx h)
        (activityData g pkg
          DatasetManagementActivityType.REQUEST_PUBLICATION ds) =
        Except.ok act :=
      (transport_activityCreate h g pkg ds).symm.trans hac
    cases e0 with
    | ValidationError r => exact absurd rfl (hnv r)
    | NotAuthorized =>
        have hL : requestRun h g c pkg "emc_request_dataset_publication"
            DatasetManagementActivityType.REQUEST_PUBLICATION =
            ([Event.packageShow pkg,
              Event.activityCreate (activityCtx h)
                (activityData g pkg
                  DatasetManagementActivityType.REQUEST_PUBLICATION ds),
              Event.userPatch (notifPatch c),
              Event.followDataset pkg], Except.error Exn.NotAuthorized) := by
          have hup' : h.userPatch
              { id := c.user, activity_streams_email_notifications := true } =
              Except.ok () := by simpa [notifPatch] using hup
          have hps0 : h.packageShow pkg = Except.ok ds := hps
          have hfd0 := hfd
          simp only [transportHost] at hfd0
          simp only [requestRun, hca, if_true, create_activity_eq, hps0]
          simp only [hac', _ensure_user_is_notifiable]
          simp [hup', hfd0, notifPatch]
        rw [hrun, hL]
        simp [retypeEvent, transport_activityCtx, retype_activityData_value]
    | OtherError n =>
        have hL : requestRun h g c pkg "emc_request_dataset_publication"
            DatasetManagementActivityType.REQUEST_PUBLICATION =
            ([Event.packageShow pkg,
              Event.activityCreate (activityCtx h)
                (activityData g pkg
                  DatasetManagementActivityType.REQUEST_PUBLICATION ds),
              Event.userPatch (notifPatch c),
              Event.followDataset pkg],
              Except.error (Exn.OtherError n)) := by
          have hup' : h.userPatch
              { id := c.user, activity_streams_email_notifications := true } =
              Except.ok () := by simpa [notifPatch] using hup
          have hps0 : h.packageShow pkg = Except.ok ds := hps
          have hfd0 := hfd
          simp only [transportHost] at hfd0
          simp only [requestRun, hca, if_true, create_activity_eq, hps0]
          simp only [hac', _ensure_user_is_notifiable]
          simp [hup', hfd0, notifPatch]
        rw [hrun, hL]
        simp [retypeEvent, transport_activityCtx, retype_activityData_value]
  · have hca : h.checkAccess "emc_request_dataset_publication" = true := by
      simpa [transportHost] using hca'
    have hac' : h.activityCreate (activityCtx h)
        (activityData g pkg
          DatasetManagementActivityType.REQUEST_PUBLICATION ds) =
        Except.ok act :=
      (transport_activityCreate h g pkg ds).symm.trans hac
    rcases hfdok with hfd | ⟨r, hfd⟩
    · rw [hrun, requestRun_follow_ok h g c pkg
        "emc_request_dataset_publication"
        DatasetManagementActivityType.REQUEST_PUBLICATION ds act hca hps
        hac' hup hfd]
      simp [retypeEvent, transport_activityCtx, retype_activityData_value]
    · rw [hrun, requestRun_follow_validation_swallowed h g c pkg
        "emc_request_dataset_publication"
        DatasetManagementActivityType.REQUEST_PUBLICATION ds act r hca hps
        hac' hup hfd]
      simp [retypeEvent, transport_activityCtx, retype_activityData_value]

end EmcDcpr
